import Mathlib

/-!
# Verification of the Zeyta desktop-control agent core

Shallow embedding of the step-wise control loop and the OpenCV-based UI
detection layer of the repository (files `agent.py` and
`ui_detection_improved.py`), together with theorems settling the frozen
claims C1..C10 about them.

Modelling conventions:
* Python floats are modelled as exact rationals (`ℚ`); the thresholds that
  appear in the source (0.45, 0.55, 0.5, 0.35, scale ladder) are exact
  decimal literals there, so nothing is lost for the control-flow facts
  proved here.
* `int(x)` (Python truncation towards zero) is `pyInt`.
* Image data and the OpenCV numeric kernels (`cv2.matchTemplate`,
  `cv2.minMaxLoc`, resizing, cropping, colour/shape analysis) are external
  libraries; they are abstracted as oracle fields of `StartCV`/`GenCV`,
  while every piece of control flow and arithmetic written in the
  repository itself is transcribed.
* The OS layer (`pyautogui`, `subprocess`) is external: each executor
  method records the attempted OS call in an explicit effect list and an
  `Option String` argument stands for the exception a call may raise.
-/

set_option autoImplicit false

namespace Zeyta

/-! ## Response parsing (agent.py, `AgentMode.execute_task`, lines 1289-1357)

The step loop extracts one JSON object from the model's free-form response
text: first it looks for a fenced block matching the regular expression
`r'```json\s*(\{.*?\})\s*```'` (DOTALL), otherwise it starts at the first
opening brace and walks brace depth, string-aware and escape-aware. -/

/-- Characters matched by `\s` in the fence regular expression (ASCII). -/
def pyWs (c : Char) : Bool :=
  c = ' ' || c = '\t' || c = '\n' || c = '\r' || c = '\x0b' || c = '\x0c'

/-- Lazy search for the closing `\x7d` of the fenced group: the group ends at
the first `\x7d` that is followed by optional whitespace and three backticks,
mirroring the lazy `.*?` of the regular expression. Returns the group body
(including the closing brace). -/
def fenceClose : List Char → List Char → Option (List Char)
  | [], _ => none
  | c :: t, acc =>
      if c = '\x7d' && "```".data.isPrefixOf (t.dropWhile pyWs) then
        some (acc.reverse ++ [c])
      else
        fenceClose t (c :: acc)

/-- Leftmost-match search for the fenced pattern: at each position try to
match the literal opening tag, then optional whitespace, an opening brace and
a lazily-closed group; on failure resume the search one character later,
exactly as `re.search` does. -/
def findFence : List Char → Option (List Char)
  | [] => none
  | c :: t =>
      if "```json".data.isPrefixOf (c :: t) then
        match (c :: t).drop 7 |>.dropWhile pyWs with
        | '\x7b' :: afterBrace =>
            match fenceClose afterBrace [] with
            | some body => some ('\x7b' :: body)
            | none => findFence t
        | _ => findFence t
      else findFence t

/-- String- and escape-aware brace-depth walk (agent.py lines 1301-1327).
Arguments: remaining characters, characters consumed so far, current depth,
inside-string flag, escape flag. Returns the number of characters up to and
including the brace closing depth to zero. The walk starts at the first
opening brace, so the depth is `1` after the first character. -/
def walkEnd : List Char → Nat → Nat → Bool → Bool → Option Nat
  | [], _, _, _, _ => none
  | c :: t, i, depth, inStr, esc =>
      if esc then walkEnd t (i + 1) depth inStr false
      else if c = '\\' then walkEnd t (i + 1) depth inStr true
      else if c = '"' && !inStr then walkEnd t (i + 1) depth true false
      else if c = '"' && inStr then walkEnd t (i + 1) depth false false
      else if c = '\x7b' && !inStr then walkEnd t (i + 1) (depth + 1) inStr false
      else if c = '\x7d' && !inStr then
        if depth = 1 then some (i + 1) else walkEnd t (i + 1) (depth - 1) inStr false
      else walkEnd t (i + 1) depth inStr false

/-- Candidate extraction without a fenced block: find the first `\x7b` and
walk to the matching close (agent.py lines 1296-1336). -/
def braceWalk (s : String) : Option String :=
  match s.data.findIdx? (fun c => c = '\x7b') with
  | none => none
  | some start =>
      match walkEnd (s.data.drop start) 0 0 false false with
      | none => none
      | some len => some (String.mk ((s.data.drop start).take len))

/-- Full candidate extraction: the fenced block's group if the pattern
matches, otherwise the brace walk (agent.py lines 1292-1342). -/
def extractJsonText (s : String) : Option String :=
  match findFence s.data with
  | some body => some (String.mk body)
  | none => braceWalk s

/-- Python `str.strip()` (ASCII whitespace): drop whitespace from both
ends. -/
def pyStrip (s : String) : String :=
  String.mk (((s.data.dropWhile pyWs).reverse.dropWhile pyWs).reverse)

/-- Python slicing `s[:n]` by characters. -/
def takePy (s : String) (n : Nat) : String :=
  String.mk (s.data.take n)

/-- Python `str.lower()` (ASCII). -/
def lowerPy (s : String) : String :=
  String.mk (s.data.map Char.toLower)

/-! ## JSON values and `json.loads`

`json.loads` is Python standard-library code, external to the repository.
Modelled from its documented grammar: strict RFC 8259 JSON plus the CPython
extensions `NaN`, `Infinity` and `-Infinity`; strict mode rejects raw
control characters inside string literals. The step loop only needs
acceptance and the parsed value. -/

/-- Parsed JSON values. Numbers keep their literal spelling; the agent never
computes with them before dispatch. -/
inductive Json where
  | null
  | bool (b : Bool)
  | num (lit : String)
  | str (s : String)
  | arr (items : List Json)
  | obj (members : List (String × Json))

/-- JSON whitespace. -/
def jWsChar (c : Char) : Bool :=
  c = ' ' || c = '\t' || c = '\n' || c = '\r'

/-- Skip JSON whitespace. -/
def jSkipWs (l : List Char) : List Char :=
  l.dropWhile jWsChar

/-- Decimal digit test. -/
def jDigit (c : Char) : Bool :=
  '0' ≤ c && c ≤ '9'

/-- Hexadecimal digit test. -/
def jHex (c : Char) : Bool :=
  jDigit c || ('a' ≤ c && c ≤ 'f') || ('A' ≤ c && c ≤ 'F')

/-- Parse the body of a string literal (the opening quote is already
consumed); returns the decoded string and the rest. Surrogate pairs decode
to a placeholder character, which is enough for acceptance and for the keys
the agent looks at (all ASCII). The fuel argument (at least the input
length suffices, every step consumes a character) keeps the recursion
structural so that the definition evaluates inside the kernel. -/
def jStrBody : Nat → List Char → List Char → Option (String × List Char)
  | 0, _, _ => none
  | _ + 1, [], _ => none
  | fuel + 1, c :: t, acc =>
      if c = '"' then some (String.mk acc.reverse, t)
      else if c = '\\' then
        match t with
        | [] => none
        | e :: t2 =>
            if e = '"' then jStrBody fuel t2 ('"' :: acc)
            else if e = '\\' then jStrBody fuel t2 ('\\' :: acc)
            else if e = '/' then jStrBody fuel t2 ('/' :: acc)
            else if e = 'b' then jStrBody fuel t2 ('\x08' :: acc)
            else if e = 'f' then jStrBody fuel t2 ('\x0c' :: acc)
            else if e = 'n' then jStrBody fuel t2 ('\n' :: acc)
            else if e = 'r' then jStrBody fuel t2 ('\r' :: acc)
            else if e = 't' then jStrBody fuel t2 ('\t' :: acc)
            else if e = 'u' then
              match t2 with
              | h1 :: h2 :: h3 :: h4 :: t3 =>
                  if jHex h1 && jHex h2 && jHex h3 && jHex h4 then
                    jStrBody fuel t3 ('?' :: acc)
                  else none
              | _ => none
            else none
      else if c.toNat < 32 then none
      else jStrBody fuel t (c :: acc)

/-- Optional fraction and exponent of a number literal. -/
def jFracExp (l : List Char) : Option (List Char) :=
  let afterFrac : Option (List Char) :=
    match l with
    | '.' :: t =>
        match t with
        | c :: _ => if jDigit c then some (t.dropWhile jDigit) else none
        | [] => none
    | _ => some l
  match afterFrac with
  | none => none
  | some l2 =>
      match l2 with
      | 'e' :: t | 'E' :: t =>
          let t2 := match t with
            | '+' :: r => r
            | '-' :: r => r
            | _ => t
          match t2 with
          | c :: _ => if jDigit c then some (t2.dropWhile jDigit) else none
          | [] => none
      | _ => some l2

/-- Consume one number literal (`-?(0|[1-9][0-9]*)(\.[0-9]+)?([eE][+-]?[0-9]+)?`),
returning the rest. -/
def jNumber (l : List Char) : Option (List Char) :=
  let l1 := match l with
    | '-' :: t => t
    | _ => l
  match l1 with
  | c :: t =>
      if c = '0' then jFracExp t
      else if jDigit c then jFracExp (t.dropWhile jDigit)
      else none
  | [] => none

/-- Parse the members of an object after the opening brace (at least one
member present), with the value parser passed in; fuel bounds the number of
members. -/
def jMembersWith (pv : List Char → Option (Json × List Char)) :
    Nat → List Char → List (String × Json) →
    Option (List (String × Json) × List Char)
  | 0, _, _ => none
  | fuel + 1, l, acc =>
      match jSkipWs l with
      | '"' :: t =>
          match jStrBody (t.length + 1) t [] with
          | none => none
          | some (k, r) =>
              match jSkipWs r with
              | ':' :: r2 =>
                  match pv r2 with
                  | none => none
                  | some (v, r3) =>
                      match jSkipWs r3 with
                      | ',' :: r4 => jMembersWith pv fuel r4 (acc ++ [(k, v)])
                      | '\x7d' :: r4 => some (acc ++ [(k, v)], r4)
                      | _ => none
              | _ => none
      | _ => none

/-- Parse the items of an array after the opening bracket (at least one item
present), with the value parser passed in. -/
def jItemsWith (pv : List Char → Option (Json × List Char)) :
    Nat → List Char → List Json → Option (List Json × List Char)
  | 0, _, _ => none
  | fuel + 1, l, acc =>
      match pv l with
      | none => none
      | some (v, r) =>
          match jSkipWs r with
          | ',' :: r2 => jItemsWith pv fuel r2 (acc ++ [v])
          | ']' :: r2 => some (acc ++ [v], r2)
          | _ => none

/-- Parse one JSON value (leading whitespace allowed), returning it and the
rest of the input. The fuel bounds the nesting depth; member and item loops
get their own length-bounded fuel. -/
def jVal : Nat → List Char → Option (Json × List Char)
  | 0, _ => none
  | fuel + 1, l =>
      match jSkipWs l with
      | [] => none
      | c :: t =>
          if c = '"' then
            match jStrBody (t.length + 1) t [] with
            | some (s, r) => some (Json.str s, r)
            | none => none
          else if c = '\x7b' then
            match jSkipWs t with
            | '\x7d' :: r => some (Json.obj [], r)
            | _ =>
                match jMembersWith (jVal fuel) (t.length + 1) t [] with
                | some (ms, r) => some (Json.obj ms, r)
                | none => none
          else if c = '[' then
            match jSkipWs t with
            | ']' :: r => some (Json.arr [], r)
            | _ =>
                match jItemsWith (jVal fuel) (t.length + 1) t [] with
                | some (xs, r) => some (Json.arr xs, r)
                | none => none
          else if "true".data.isPrefixOf (c :: t) then some (Json.bool true, (c :: t).drop 4)
          else if "false".data.isPrefixOf (c :: t) then some (Json.bool false, (c :: t).drop 5)
          else if "null".data.isPrefixOf (c :: t) then some (Json.null, (c :: t).drop 4)
          else if "NaN".data.isPrefixOf (c :: t) then some (Json.num "NaN", (c :: t).drop 3)
          else if "Infinity".data.isPrefixOf (c :: t) then some (Json.num "Infinity", (c :: t).drop 8)
          else if "-Infinity".data.isPrefixOf (c :: t) then some (Json.num "-Infinity", (c :: t).drop 9)
          else if c = '-' || jDigit c then
            match jNumber (c :: t) with
            | some rest =>
                some (Json.num (String.mk ((c :: t).take ((c :: t).length - rest.length))), rest)
            | none => none
          else none

/-- Model of `json.loads`: parse one value and require only whitespace to
follow. `none` is a raised `json.JSONDecodeError`. -/
def parseJson (s : String) : Option Json :=
  match jVal (s.length + 1) s.data with
  | some (v, rest) => if jSkipWs rest = [] then some v else none
  | none => none

/-! ## Loop guard (agent.py, lines 1369-1389)

The loop tracks `last_action` (initially `None`) and `repeat_count`
(initially 0). A step whose dispatch signature equals `last_action`
increments the count; any other signature resets the count to 0 and stores
the new signature. A warning is logged at count ≥ 3 and the loop is broken
at count ≥ 5. -/

/-- One loop-guard update. -/
def loopGuard (last : Option String) (cnt : Nat) (sig : String) : Option String × Nat :=
  if last = some sig then (last, cnt + 1) else (some sig, 0)

/-- Run the guard over a list of signatures from its initial state. -/
def guardRun (sigs : List String) : Option String × Nat :=
  sigs.foldl (fun st sig => loopGuard st.1 st.2 sig) (none, 0)

/-- The repeat count observed after each successive signature. -/
def guardCounts (sigs : List String) : List Nat :=
  (sigs.foldl
    (fun acc sig =>
      let st := loopGuard acc.1.1 acc.1.2 sig
      (st, acc.2 ++ [st.2]))
    ((none, 0), [])).2

/-- The non-fatal warning condition (`repeat_count >= 3`). -/
def loopWarn (cnt : Nat) : Prop := 3 ≤ cnt

/-- The abort condition (`repeat_count >= 5`, breaking the loop). -/
def loopAbort (cnt : Nat) : Prop := 5 ≤ cnt

/-! ## TaskExecutor (agent.py, lines 479-757)

Permissions are a dictionary from capability name to a Boolean, all four
capabilities initially `False`; `request_permission` reads with default
`False`, so the map is embedded as a total function. Each primitive action
method checks its capability, then attempts the OS call; the attempted call
is recorded in an explicit effect list, and an `Option String` argument is
the exception the external OS layer may raise (`none` = the call
succeeded). On success exactly one record is appended to
`action_history`. -/

/-- The initial permission map: every capability denied. -/
def initPermissions : String → Bool := fun _ => false

/-- `TaskExecutor.request_permission`. -/
def request_permission (perms : String → Bool) (action_type : String) : Bool :=
  perms action_type

/-- `TaskExecutor.set_permission`. -/
def set_permission (perms : String → Bool) (action_type : String) (granted : Bool) :
    String → Bool :=
  fun k => if k = action_type then granted else perms k

/-- The auto-grant performed at the top of `AgentMode.execute_task`
(agent.py lines 887-891): all four capabilities are set to `True`. -/
def taskStartPermissions (perms : String → Bool) : String → Bool :=
  set_permission
    (set_permission
      (set_permission
        (set_permission perms "mouse_click" true)
        "keyboard_type" true)
      "file_operations" true)
    "system_commands" true

/-- One entry of `action_history`: the action dictionary built by the
executor methods (type tag, parameter preview fields, ISO timestamp). -/
structure ActionRec where
  type : String
  detail : List (String × String)
  timestamp : String
deriving DecidableEq

/-- Mutable `TaskExecutor` state: the permission map and the append-only
action history. -/
structure ExecState where
  permissions : String → Bool
  action_history : List ActionRec

/-- Return value of an executor method. -/
structure ExecOutcome where
  success : Bool
  action : Option ActionRec
  error : Option String
deriving DecidableEq

/-- The structured failure returned when a capability is not granted. -/
def deniedOutcome (cap : String) : ExecOutcome :=
  { success := false, action := none, error := some ("Permission denied: " ++ cap) }

/-- Shared success/failure tail of every executor method: attempt the OS
call (recorded in the effect list); on an exception return the error with
no history append, otherwise append exactly the given record. -/
def execFinish (st : ExecState) (osErr : Option String) (eff : String) (a : ActionRec) :
    ExecOutcome × ExecState × List String :=
  match osErr with
  | some e => ({ success := false, action := none, error := some e }, st, [eff])
  | none =>
      ({ success := true, action := some a, error := none },
       { st with action_history := st.action_history ++ [a] }, [eff])

/-- `TaskExecutor.execute_mouse_click`. -/
def execute_mouse_click (st : ExecState) (now : String) (osErr : Option String)
    (x y : Int) (button : String) : ExecOutcome × ExecState × List String :=
  if !(request_permission st.permissions "mouse_click") then
    (deniedOutcome "mouse_click", st, [])
  else
    execFinish st osErr "pyautogui.click"
      { type := "mouse_click",
        detail := [("x", toString x), ("y", toString y), ("button", button)],
        timestamp := now }

/-- `TaskExecutor.execute_keyboard_type`; the stored preview is the first 50
characters of the typed text. -/
def execute_keyboard_type (st : ExecState) (now : String) (osErr : Option String)
    (text : String) : ExecOutcome × ExecState × List String :=
  if !(request_permission st.permissions "keyboard_type") then
    (deniedOutcome "keyboard_type", st, [])
  else
    execFinish st osErr "pyautogui.write"
      { type := "keyboard_type", detail := [("text", takePy text 50)], timestamp := now }

/-- `TaskExecutor.execute_key_press`. -/
def execute_key_press (st : ExecState) (now : String) (osErr : Option String)
    (key : String) : ExecOutcome × ExecState × List String :=
  if !(request_permission st.permissions "keyboard_type") then
    (deniedOutcome "keyboard_type", st, [])
  else
    execFinish st osErr "pyautogui.press"
      { type := "key_press", detail := [("key", key)], timestamp := now }

/-- `TaskExecutor.execute_hotkey`; the keys are stored joined with `+`. -/
def execute_hotkey (st : ExecState) (now : String) (osErr : Option String)
    (keys : List String) : ExecOutcome × ExecState × List String :=
  if !(request_permission st.permissions "keyboard_type") then
    (deniedOutcome "keyboard_type", st, [])
  else
    execFinish st osErr "pyautogui.hotkey"
      { type := "hotkey", detail := [("keys", String.intercalate "+" keys)], timestamp := now }

/-- The `app_commands` table of `TaskExecutor.open_application`, looked up
with the lower-cased app name, defaulting to the name itself. -/
def appCommand (app_name : String) : String :=
  let key := lowerPy app_name
  if key = "notepad" then "notepad.exe"
  else if key = "calculator" then "calc.exe"
  else if key = "paint" then "mspaint.exe"
  else if key = "explorer" then "explorer.exe"
  else if key = "cmd" then "cmd.exe"
  else if key = "powershell" then "powershell.exe"
  else if key = "chrome" then "C:\\Program Files\\Google\\Chrome\\Application\\chrome.exe"
  else if key = "edge" then "msedge.exe"
  else if key = "firefox" then "C:\\Program Files\\Mozilla Firefox\\firefox.exe"
  else app_name

/-- `TaskExecutor.open_application`. -/
def open_application (st : ExecState) (now : String) (osErr : Option String)
    (app_name : String) : ExecOutcome × ExecState × List String :=
  if !(request_permission st.permissions "system_commands") then
    (deniedOutcome "system_commands", st, [])
  else
    execFinish st osErr ("subprocess.Popen " ++ appCommand app_name)
      { type := "open_application", detail := [("app", app_name)], timestamp := now }

/-- `TaskExecutor.execute_mouse_move`. -/
def execute_mouse_move (st : ExecState) (now : String) (osErr : Option String)
    (x y : Int) : ExecOutcome × ExecState × List String :=
  if !(request_permission st.permissions "mouse_click") then
    (deniedOutcome "mouse_click", st, [])
  else
    execFinish st osErr "pyautogui.moveTo"
      { type := "mouse_move", detail := [("x", toString x), ("y", toString y)],
        timestamp := now }

/-- `TaskExecutor.execute_escape`. -/
def execute_escape (st : ExecState) (now : String) (osErr : Option String) :
    ExecOutcome × ExecState × List String :=
  if !(request_permission st.permissions "keyboard_type") then
    (deniedOutcome "keyboard_type", st, [])
  else
    execFinish st osErr "pyautogui.press esc"
      { type := "escape", detail := [], timestamp := now }

/-- `TaskExecutor.execute_alt_tab`. -/
def execute_alt_tab (st : ExecState) (now : String) (osErr : Option String) :
    ExecOutcome × ExecState × List String :=
  if !(request_permission st.permissions "keyboard_type") then
    (deniedOutcome "keyboard_type", st, [])
  else
    execFinish st osErr "pyautogui.hotkey alt tab"
      { type := "alt_tab", detail := [], timestamp := now }

/-- `TaskExecutor.execute_ctrl_n`. -/
def execute_ctrl_n (st : ExecState) (now : String) (osErr : Option String) :
    ExecOutcome × ExecState × List String :=
  if !(request_permission st.permissions "keyboard_type") then
    (deniedOutcome "keyboard_type", st, [])
  else
    execFinish st osErr "pyautogui.hotkey ctrl n"
      { type := "ctrl_n", detail := [("description", "New window/document")], timestamp := now }

/-- `TaskExecutor.execute_select_all`. -/
def execute_select_all (st : ExecState) (now : String) (osErr : Option String) :
    ExecOutcome × ExecState × List String :=
  if !(request_permission st.permissions "keyboard_type") then
    (deniedOutcome "keyboard_type", st, [])
  else
    execFinish st osErr "pyautogui.hotkey ctrl a"
      { type := "select_all", detail := [], timestamp := now }

/-- `TaskExecutor.execute_save_file`. -/
def execute_save_file (st : ExecState) (now : String) (osErr : Option String) :
    ExecOutcome × ExecState × List String :=
  if !(request_permission st.permissions "file_operations") then
    (deniedOutcome "file_operations", st, [])
  else
    execFinish st osErr "pyautogui.hotkey ctrl s"
      { type := "save_file", detail := [], timestamp := now }

/-- `TaskExecutor.execute_double_click`. -/
def execute_double_click (st : ExecState) (now : String) (osErr : Option String)
    (x y : Int) : ExecOutcome × ExecState × List String :=
  if !(request_permission st.permissions "mouse_click") then
    (deniedOutcome "mouse_click", st, [])
  else
    execFinish st osErr "pyautogui.doubleClick"
      { type := "double_click", detail := [("x", toString x), ("y", toString y)],
        timestamp := now }

/-- `TaskExecutor.execute_right_click`. -/
def execute_right_click (st : ExecState) (now : String) (osErr : Option String)
    (x y : Int) : ExecOutcome × ExecState × List String :=
  if !(request_permission st.permissions "mouse_click") then
    (deniedOutcome "mouse_click", st, [])
  else
    execFinish st osErr "pyautogui.rightClick"
      { type := "right_click", detail := [("x", toString x), ("y", toString y)],
        timestamp := now }

/-- `TaskExecutor.execute_scroll`. -/
def execute_scroll (st : ExecState) (now : String) (osErr : Option String)
    (amount : Int) : ExecOutcome × ExecState × List String :=
  if !(request_permission st.permissions "mouse_click") then
    (deniedOutcome "mouse_click", st, [])
  else
    execFinish st osErr "pyautogui.scroll"
      { type := "scroll", detail := [("amount", toString amount)], timestamp := now }

/-! ## The step loop of `AgentMode.execute_task` (agent.py, lines 881-1672)

The loop is modelled at the granularity the parse-handling claims live at:

* the inference service is an oracle `script : Nat → String` giving each
  step's fully accumulated response text (in streamed mode the repository
  concatenates the chunk tokens into exactly this string before parsing);
* screen capture succeeds and `cancel_requested` stays `False` (it is reset
  at task start and the model is single-threaded, as is the loop itself);
* `agent_templates` is absent from the repository, so the import fallback
  applies: `enhance_task_prompt` is the identity and no intent line is
  logged;
* everything from a *successfully parsed* action plan onwards (observation
  logging, loop-guard bookkeeping — verified separately on `loopGuard` —
  and the action dispatch table) is a parameter `dispatch`, universally
  quantified in the theorems, which may continue the loop, break out of it,
  or return a terminal result exactly as the corresponding Python block
  can.

After the `for` loop ends — by exhausting `max_steps = 15` or by `break` —
the code unconditionally builds the `success: True` "stopped after 15
steps" result (agent.py lines 1637-1644) and returns it after cleanup. -/

/-- Loop-carried state of `execute_task`. -/
structure LoopState where
  steps_completed : Nat
  last_action : Option String
  repeat_count : Nat
  log : List String
deriving DecidableEq

/-- Terminal result dictionary of `execute_task` (the `task` echo field is
omitted). -/
structure TaskResult where
  success : Bool
  steps_completed : Nat
  execution_log : List String
  message : Option String
  error : Option String
deriving DecidableEq

/-- What the post-parse block of one step can do: return a terminal result
(`complete`, manual mode), break the loop, or continue to the next step. -/
inductive DispatchRes where
  | ret (r : TaskResult)
  | brk (st : LoopState)
  | next (st : LoopState)

/-- The result built after the `for` loop ends, reached both by running out
of steps and by `break` (agent.py lines 1637-1644): `success` is `True`. -/
def stoppedResult (st : LoopState) : TaskResult :=
  { success := true, steps_completed := st.steps_completed, execution_log := st.log,
    message := some "Task execution stopped after 15 steps. May need manual completion.",
    error := none }

/-- The two log lines appended when no JSON candidate is found in a step's
response text (agent.py lines 1332-1341). -/
def noJsonLog (stepIdx : Nat) (rt : String) : List String :=
  ["Step " ++ toString (stepIdx + 1) ++ ": Invalid AI response format",
   "  AI said: " ++ takePy rt 200 ++ "..."]

/-- The two log lines appended when the candidate fails `json.loads`
(agent.py lines 1352-1357). -/
def badJsonLog (stepIdx : Nat) (cand : String) : List String :=
  ["Step " ++ toString (stepIdx + 1) ++ ": Could not parse AI response",
   "  JSON found: " ++ takePy cand 100 ++ "..."]

/-- One step of the loop up to and including response parsing; a parsed
action plan is handed to `dispatch`. -/
def stepBody (dispatch : Json → Nat → LoopState → DispatchRes) (text : String)
    (stepIdx : Nat) (st : LoopState) : DispatchRes :=
  let rt := pyStrip text
  if rt = "" then
    .brk { st with log := st.log ++
      ["Step " ++ toString (stepIdx + 1) ++ ": AI returned empty response"] }
  else
    match extractJsonText rt with
    | none => .brk { st with log := st.log ++ noJsonLog stepIdx rt }
    | some cand =>
        match parseJson cand with
        | none => .brk { st with log := st.log ++ badJsonLog stepIdx cand }
        | some plan => dispatch plan stepIdx st

/-- The `for step in range(max_steps)` loop; `fuel` is the number of
iterations left. Breaking and exhausting the range both fall through to
`stoppedResult`. -/
def runFrom (dispatch : Json → Nat → LoopState → DispatchRes) (script : Nat → String) :
    Nat → Nat → LoopState → TaskResult
  | 0, _, st => stoppedResult st
  | fuel + 1, stepIdx, st =>
      match stepBody dispatch (script stepIdx) stepIdx st with
      | .ret r => r
      | .brk st2 => stoppedResult st2
      | .next st2 => runFrom dispatch script fuel (stepIdx + 1) st2

/-- `max_steps` (agent.py line 913). -/
def maxSteps : Nat := 15

/-- Run a whole task: initial log `["Original task: ..."]`, counters zeroed,
then the 15-iteration loop. -/
def runTask (dispatch : Json → Nat → LoopState → DispatchRes) (script : Nat → String)
    (task : String) : TaskResult :=
  runFrom dispatch script maxSteps 0
    { steps_completed := 0, last_action := none, repeat_count := 0,
      log := ["Original task: " ++ task] }

/-! ## UI detection (ui_detection_improved.py)

`DetectionResult` and the two detectors. Image data is an abstract type
`σ`; the OpenCV kernels are oracle fields. The scale ladder, the skip
conditions, the best-match bookkeeping, the centre arithmetic and the
threshold logic are all repository code and are transcribed. -/

/-- Python `int(x)`: truncation towards zero. -/
def pyInt (q : ℚ) : ℤ :=
  if 0 ≤ q then ⌊q⌋ else ⌈q⌉

/-- `DetectionResult` (ui_detection_improved.py lines 23-37). -/
structure DetectionResult where
  name : String
  x : ℤ
  y : ℤ
  width : ℤ
  height : ℤ
  confidence : ℚ
  method : String
deriving DecidableEq

/-- The `center` property returns `(x, y)` verbatim. -/
def DetectionResult.center (r : DetectionResult) : ℤ × ℤ :=
  (r.x, r.y)

/-- The two `cv2.matchTemplate` metrics tried per scale. -/
inductive TMMethod where
  | ccoeffNormed
  | ccorrNormed
deriving DecidableEq

/-- The metric list `[cv2.TM_CCOEFF_NORMED, cv2.TM_CCORR_NORMED]`. -/
def tmMethods : List TMMethod := [.ccoeffNormed, .ccorrNormed]

/-- The scale ladder `[0.6, 0.7, 0.8, 0.9, 1.0, 1.1, 1.2, 1.3, 1.5]` shared
by both detectors. -/
def tmScales : List ℚ := [6/10, 7/10, 8/10, 9/10, 1, 11/10, 12/10, 13/10, 15/10]

/-- `StartButtonDetector._TemplateMatch`: centre coordinates (floats in the
source), scaled template extent and raw correlation confidence. -/
structure TMatch where
  x : ℚ
  y : ℚ
  width : Nat
  height : Nat
  confidence : ℚ
deriving DecidableEq

/-- Oracles for the external image operations used by
`StartButtonDetector`. `mm img (h, w) m` is the `(max_loc, max_val)` pair
`cv2.minMaxLoc` reports for metric `m` on the given region with the
template scaled to height `h` and width `w`. -/
structure StartCV (σ : Type) where
  tdim : ℚ → Nat × Nat
  roiDims : σ → Nat × Nat
  mm : σ → Nat × Nat → TMMethod → (Nat × Nat) × ℚ
  extractRoi : σ → σ × Nat × Nat
  cropMargin : σ → ℚ × ℚ → Nat × Nat → ℚ → σ
  patchNonempty : σ → Bool
  colourOk : σ → Bool
  shapeOk : σ → Bool

variable {σ : Type}

/-- The best-match update for one metric at one scale
(ui_detection_improved.py lines 155-166): replace the running best when
there is none yet or the new `max_val` is strictly larger; the candidate's
`x`/`y` are `max_loc` plus half the scaled template extent. -/
def tmUpdate (cv : StartCV σ) (roi : σ) (dims : Nat × Nat)
    (best : Option TMatch) (m : TMMethod) : Option TMatch :=
  let r := cv.mm roi dims m
  let cand : TMatch :=
    { x := (r.1.1 : ℚ) + (dims.2 : ℚ) / 2, y := (r.1.2 : ℚ) + (dims.1 : ℚ) / 2,
      width := dims.2, height := dims.1, confidence := r.2 }
  match best with
  | none => some cand
  | some b => if r.2 > b.confidence then some cand else some b

/-- One scale of the ladder: skip when the scaled template does not fit
strictly inside the region (`>=` comparison in the source), otherwise fold
the two metrics. -/
def tmScaleStep (cv : StartCV σ) (roi : σ) (rdims : Nat × Nat)
    (best : Option TMatch) (scale : ℚ) : Option TMatch :=
  let d := cv.tdim scale
  if d.1 ≥ rdims.1 ∨ d.2 ≥ rdims.2 then best
  else tmMethods.foldl (tmUpdate cv roi d) best

/-- The single best match across all scale × metric combinations. -/
def tmBest (cv : StartCV σ) (roi : σ) : Option TMatch :=
  tmScales.foldl (tmScaleStep cv roi (cv.roiDims roi)) none

/-- `StartButtonDetector._run_template_matching`: the best match is returned
only when its confidence reaches the `0.45` floor. -/
def runTemplateMatching (cv : StartCV σ) (roi : σ) : Option TMatch :=
  match tmBest cv roi with
  | some b => if b.confidence ≥ 45/100 then some b else none
  | none => none

/-- The margin-expanded candidate patch cropped around the candidate centre
with `margin_ratio = 0.35` (ui_detection_improved.py lines 99-104). -/
def startPatch (cv : StartCV σ) (img : σ) (m : TMatch) : σ :=
  let ro := cv.extractRoi img
  cv.cropMargin img ((ro.2.1 : ℚ) + m.x, (ro.2.2 : ℚ) + m.y) (m.width, m.height) (35/100)

/-- The `DetectionResult` both acceptance branches of
`StartButtonDetector.detect` build: candidate centre offset by the ROI
origin and truncated by `int(...)`. -/
def startResult (cv : StartCV σ) (img : σ) (m : TMatch) (meth : String) : DetectionResult :=
  let ro := cv.extractRoi img
  { name := "Windows Start button",
    x := pyInt ((ro.2.1 : ℚ) + m.x), y := pyInt ((ro.2.2 : ℚ) + m.y),
    width := (m.width : ℤ), height := (m.height : ℤ),
    confidence := m.confidence, method := meth }

/-- `StartButtonDetector.detect` (ui_detection_improved.py lines 73-123):
confidence ≥ 0.55 returns immediately; the lower band runs the colour and
shape checks on the margin-expanded patch; an empty patch or a failed check
rejects. -/
def startDetect (cv : StartCV σ) (img : σ) : Option DetectionResult :=
  let ro := cv.extractRoi img
  match runTemplateMatching cv ro.1 with
  | none => none
  | some m =>
      if m.confidence ≥ 55/100 then
        some (startResult cv img m "opencv_template_matching")
      else
        let patch := startPatch cv img m
        if !(cv.patchNonempty patch) then none
        else if cv.colourOk patch && cv.shapeOk patch then
          some (startResult cv img m "opencv_template+colour+shape")
        else none

/-- Oracles for `GenericUIDetector`: the stored template's `(h, w)` shape
and the same external kernels. -/
structure GenCV (σ : Type) where
  tShape : Nat × Nat
  roiShape : σ → Nat × Nat
  mm : σ → Nat × Nat → TMMethod → (Nat × Nat) × ℚ
  extractRoi : σ → σ × Nat × Nat

/-- `int(extent * scale)` for a non-negative extent. -/
def natScale (n : Nat) (q : ℚ) : Nat :=
  (pyInt ((n : ℚ) * q)).toNat

/-- Best-match entry of `GenericUIDetector._run_template_matching`
(integer centre: `max_loc + extent // 2`). -/
structure GenMatch where
  x : Nat
  y : Nat
  width : Nat
  height : Nat
  confidence : ℚ
deriving DecidableEq

/-- One scale of the generic ladder (ui_detection_improved.py lines
461-488): skip scaled extents below 10 pixels or larger than the region
(strict `>` in the source); a metric's result replaces the best exactly
when its confidence is strictly above the running best confidence
(initially `0.0`). -/
def genStep (cv : GenCV σ) (roi : σ) (rdims : Nat × Nat)
    (acc : Option GenMatch × ℚ) (scale : ℚ) : Option GenMatch × ℚ :=
  let nw := natScale cv.tShape.2 scale
  let nh := natScale cv.tShape.1 scale
  if nw < 10 ∨ nh < 10 then acc
  else if nw > rdims.2 ∨ nh > rdims.1 then acc
  else
    tmMethods.foldl
      (fun acc m =>
        let r := cv.mm roi (nh, nw) m
        if r.2 > acc.2 then
          (some { x := r.1.1 + nw / 2, y := r.1.2 + nh / 2,
                  width := nw, height := nh, confidence := r.2 }, r.2)
        else acc)
      acc

/-- `GenericUIDetector._run_template_matching`: fold the ladder from
`(None, 0.0)` and accept only a best confidence ≥ 0.5. -/
def genRunTemplateMatching (cv : GenCV σ) (roi : σ) : Option GenMatch :=
  let acc := tmScales.foldl (genStep cv roi (cv.roiShape roi)) (none, 0)
  if acc.2 ≥ 1/2 then acc.1 else none

/-- `GenericUIDetector.detect`: ROI coordinates are converted to screen
coordinates by adding the ROI origin; there is no secondary validation. -/
def genDetect (cv : GenCV σ) (name : String) (img : σ) : Option DetectionResult :=
  match genRunTemplateMatching cv (cv.extractRoi img).1 with
  | none => none
  | some m =>
      some { name := name,
             x := ((m.x + (cv.extractRoi img).2.1 : Nat) : ℤ),
             y := ((m.y + (cv.extractRoi img).2.2 : Nat) : ℤ),
             width := (m.width : ℤ), height := (m.height : ℤ),
             confidence := m.confidence, method := "opencv_template_matching" }

/-! ## UIElementDetector dispatch and cache (agent.py, lines 281-476)

The four per-glyph detectors are `Optional` (a missing template asset or a
failed construction leaves the slot `None`). `detect_elements` lower-cases
the query, tests the four keyword sets in order and, when a matching
detector produces a detection, builds the element dictionary and stores it
in `self.detected_elements` keyed by the *detection's* name.
`find_element` consults that cache first and only detects on a miss. -/

/-- Round-half-to-even at integer resolution (Python `round`). -/
def roundHalfEven (q : ℚ) : ℤ :=
  let f := ⌊q⌋
  let frac := q - (f : ℚ)
  if frac < 1/2 then f
  else if frac > 1/2 then f + 1
  else if f % 2 = 0 then f else f + 1

/-- `round(confidence, 3)`. -/
def round3 (q : ℚ) : ℚ :=
  (roundHalfEven (q * 1000) : ℚ) / 1000

/-- The element dictionary `detect_elements` builds from a detection
(agent.py lines 360-369 and the three analogous blocks). -/
structure Element where
  name : String
  x : ℤ
  y : ℤ
  width : ℤ
  height : ℤ
  confidence : ℚ
  description : String
  method : String
deriving DecidableEq

/-- Build the element dictionary from a `DetectionResult`. -/
def mkElement (d : DetectionResult) : Element :=
  { name := d.name, x := d.x, y := d.y, width := d.width, height := d.height,
    confidence := round3 d.confidence, description := "Detected via OpenCV",
    method := d.method }

/-- The `self.detected_elements` dictionary, in insertion order. -/
abbrev Cache := List (String × Element)

/-- Dictionary lookup. -/
def cacheGet : Cache → String → Option Element
  | [], _ => none
  | (k, v) :: t, key => if k = key then some v else cacheGet t key

/-- Dictionary store: overwrite in place or append. -/
def cacheSet : Cache → String → Element → Cache
  | [], key, v => [(key, v)]
  | (k, w) :: t, key, v =>
      if k = key then (key, v) :: t else (k, w) :: cacheSet t key v

/-- Substring test (`needle in haystack` on Python strings). -/
def subChars (needle : List Char) : List Char → Bool
  | [] => needle.isEmpty
  | c :: t => needle.isPrefixOf (c :: t) || subChars needle t

/-- `needle in hay` for strings. -/
def containsStr (hay needle : String) : Bool :=
  subChars needle.data hay.data

/-- Start-detector keyword set: `("start button", "start menu", "windows start")`. -/
def kwStart (ql : String) : Bool :=
  containsStr ql "start button" || containsStr ql "start menu" ||
    containsStr ql "windows start"

/-- Edge-detector keyword set: `("edge", "browser", "microsoft edge")`. -/
def kwEdge (ql : String) : Bool :=
  containsStr ql "edge" || containsStr ql "browser" || containsStr ql "microsoft edge"

/-- Folders-detector keyword set: `("file explorer", "folders", "folder", "explorer")`. -/
def kwFolders (ql : String) : Bool :=
  containsStr ql "file explorer" || containsStr ql "folders" ||
    containsStr ql "folder" || containsStr ql "explorer"

/-- Search-bar keyword set: `("search", "search bar")`. -/
def kwSearch (ql : String) : Bool :=
  containsStr ql "search" || containsStr ql "search bar"

/-- The four optional per-glyph detectors, each a detection oracle over the
abstract screenshot type. -/
structure Detectors (σ : Type) where
  start_detector : Option (σ → Option DetectionResult)
  edge_detector : Option (σ → Option DetectionResult)
  folders_detector : Option (σ → Option DetectionResult)
  searchbar_detector : Option (σ → Option DetectionResult)

/-- The shared per-detector block: run the detector; a detection is turned
into an element, cached under the detection's name and returned as a
singleton; a miss returns the empty list with the cache untouched. -/
def runDetector (f : σ → Option DetectionResult) (cache : Cache) (shot : σ) :
    List Element × Cache :=
  match f shot with
  | some d =>
      let e := mkElement d
      ([e], cacheSet cache e.name e)
  | none => ([], cache)

/-- Search-bar stage: the last keyword test; with no matching initialized
detector the function falls to the final `return []`. -/
def detectViaSearch (d : Detectors σ) (cache : Cache) (shot : σ) (ql : String) :
    List Element × Cache :=
  if kwSearch ql then
    match d.searchbar_detector with
    | some f => runDetector f cache shot
    | none => ([], cache)
  else ([], cache)

/-- Folders stage; note that a matching keyword set whose detector slot is
`None` falls through to the next stage (there is no early return in the
source in that case). -/
def detectViaFolders (d : Detectors σ) (cache : Cache) (shot : σ) (ql : String) :
    List Element × Cache :=
  if kwFolders ql then
    match d.folders_detector with
    | some f => runDetector f cache shot
    | none => detectViaSearch d cache shot ql
  else detectViaSearch d cache shot ql

/-- Edge stage, with the same fall-through behaviour. -/
def detectViaEdge (d : Detectors σ) (cache : Cache) (shot : σ) (ql : String) :
    List Element × Cache :=
  if kwEdge ql then
    match d.edge_detector with
    | some f => runDetector f cache shot
    | none => detectViaFolders d cache shot ql
  else detectViaFolders d cache shot ql

/-- Start stage, the first keyword test. -/
def detectViaStart (d : Detectors σ) (cache : Cache) (shot : σ) (ql : String) :
    List Element × Cache :=
  if kwStart ql then
    match d.start_detector with
    | some f => runDetector f cache shot
    | none => detectViaEdge d cache shot ql
  else detectViaEdge d cache shot ql

/-- `UIElementDetector.detect_elements` (agent.py lines 336-449): a falsy
query returns the empty list; otherwise lower-case the query and run the
keyword chain. -/
def detect_elements (d : Detectors σ) (cache : Cache) (shot : σ)
    (element_query : Option String) : List Element × Cache :=
  match element_query with
  | none => ([], cache)
  | some q => if q = "" then ([], cache) else detectViaStart d cache shot (lowerPy q)

/-- `UIElementDetector.find_element` (agent.py lines 451-466): the cache is
consulted first; only on a miss, and only when a screenshot was supplied,
is `detect_elements` invoked. -/
def find_element (d : Detectors σ) (cache : Cache) (element_name : String)
    (shot : Option σ) : Option Element × Cache :=
  match cacheGet cache element_name with
  | some e => (some e, cache)
  | none =>
      match shot with
      | some s =>
          let r := detect_elements d cache s (some element_name)
          match r.1 with
          | e :: _ => (some e, r.2)
          | [] => (none, r.2)
      | none => (none, cache)

/-! ## Theorems for the claims -/

/-- Helper: feeding `n` further copies of an already-stored signature into
the guard adds `n` to the repeat count. -/
theorem guardFoldConst (s : String) :
    ∀ n c : Nat,
      (List.replicate n s).foldl (fun st sig => loopGuard st.1 st.2 sig) (some s, c) =
        (some s, c + n) := by
  intro n
  induction n with
  | zero => intro c; simp
  | succ k ih =>
      intro c
      simp only [List.replicate_succ, List.foldl_cons]
      have h1 : loopGuard ((some s : Option String), c).1 ((some s : Option String), c).2 s =
          (some s, c + 1) := by
        simp [loopGuard]
      rw [h1, ih (c + 1)]
      have : c + 1 + k = c + (k + 1) := by omega
      rw [this]

/-- Helper: after `k + 1` identical signatures the stored signature is that
signature and the repeat count is `k`. -/
theorem guardRunReplicate (s : String) (k : Nat) :
    guardRun (List.replicate (k + 1) s) = (some s, k) := by
  simp only [guardRun, List.replicate_succ, List.foldl_cons]
  have h0 : loopGuard ((none : Option String), 0).1 ((none : Option String), 0).2 s =
      (some s, 0) := by
    simp [loopGuard]
  rw [h0, guardFoldConst s k 0]
  simp

/-- Claim C4: over five identical consecutive dispatch signatures the
repeat counts are 0, 1, 2, 3, 4; the abort condition (count ≥ 5) does not
hold anywhere in those five occurrences and first holds at the fifth
repetition (the sixth consecutive identical signature); the warning
condition (count ≥ 3) first holds at the third repetition; and any change
of signature resets the count to 0. -/
theorem claim_C4 (s s2 : String) (h : s2 ≠ s) :
    guardCounts (List.replicate 5 s) = [0, 1, 2, 3, 4]
    ∧ (∀ k, k ≤ 5 → ¬ loopAbort (guardRun (List.replicate k s)).2)
    ∧ loopAbort (guardRun (List.replicate 6 s)).2
    ∧ (∀ k, k ≤ 3 → ¬ loopWarn (guardRun (List.replicate k s)).2)
    ∧ loopWarn (guardRun (List.replicate 4 s)).2
    ∧ (∀ cnt, (loopGuard (some s) cnt s2).2 = 0)
    ∧ (∀ cnt lastSig, lastSig ≠ some s2 → (loopGuard lastSig cnt s2).2 = 0) := by
  refine ⟨?_, ?_, ?_, ?_, ?_, ?_, ?_⟩
  · simp [guardCounts, List.replicate, loopGuard]
  · intro k hk
    match k with
    | 0 => simp [guardRun, loopAbort]
    | j + 1 =>
        rw [guardRunReplicate]
        simp only [loopAbort]
        omega
  · show loopAbort (guardRun (List.replicate (5 + 1) s)).2
    rw [guardRunReplicate]
    simp [loopAbort]
  · intro k hk
    match k with
    | 0 => simp [guardRun, loopWarn]
    | j + 1 =>
        rw [guardRunReplicate]
        simp only [loopWarn]
        omega
  · show loopWarn (guardRun (List.replicate (3 + 1) s)).2
    rw [guardRunReplicate]
    simp [loopWarn]
  · intro cnt
    simp [loopGuard, Ne.symm h]
  · intro cnt lastSig hne
    simp [loopGuard, hne]

/-- Witness for C4 at concrete signatures. -/
theorem claim_C4_witness :
    guardCounts (List.replicate 5 "wait_") = [0, 1, 2, 3, 4]
    ∧ loopAbort (guardRun (List.replicate 6 "wait_")).2
    ∧ (loopGuard (some "wait_") 4 "open_app_notepad").2 = 0 :=
  ⟨(claim_C4 "wait_" "open_app_notepad" (by decide)).1,
   (claim_C4 "wait_" "open_app_notepad" (by decide)).2.2.1,
   (claim_C4 "wait_" "open_app_notepad" (by decide)).2.2.2.2.2.1 4⟩

/-- Claim C2, counterexample: starting a task does not leave the
capabilities unchanged — `execute_task` begins by auto-granting all four,
so the `mouse_click` capability flips from denied to granted. -/
theorem claim_C2_counterexample :
    initPermissions "mouse_click" = false ∧
    taskStartPermissions initPermissions "mouse_click" = true :=
  ⟨rfl, by decide⟩

/-- Claim C2 (amended): the permission map is mutated only through
`set_permission`, which touches exactly the named capability; however
`execute_task` begins by explicitly calling `set_permission` four times,
setting every capability to granted, so starting a task grants all
capabilities rather than leaving them unchanged. -/
theorem claim_C2_amended (perms : String → Bool) :
    taskStartPermissions perms "mouse_click" = true
    ∧ taskStartPermissions perms "keyboard_type" = true
    ∧ taskStartPermissions perms "file_operations" = true
    ∧ taskStartPermissions perms "system_commands" = true
    ∧ (∀ k, k ≠ "mouse_click" → k ≠ "keyboard_type" → k ≠ "file_operations" →
        k ≠ "system_commands" → taskStartPermissions perms k = perms k)
    ∧ (∀ (p : String → Bool) (a : String) (g : Bool) (k : String), k ≠ a →
        set_permission p a g k = p k)
    ∧ (∀ (p : String → Bool) (a : String) (g : Bool), set_permission p a g a = g) := by
  refine ⟨?_, ?_, ?_, ?_, ?_, ?_, ?_⟩
  · simp [taskStartPermissions, set_permission]
  · simp [taskStartPermissions, set_permission]
  · simp [taskStartPermissions, set_permission]
  · simp [taskStartPermissions, set_permission]
  · intro k h1 h2 h3 h4
    simp [taskStartPermissions, set_permission, h1, h2, h3, h4]
  · intro p a g k hk
    simp [set_permission, hk]
  · intro p a g
    simp [set_permission]

/-- Witness for the amended C2 at concrete capabilities. -/
theorem claim_C2_witness :
    taskStartPermissions initPermissions "keyboard_type" = true
    ∧ taskStartPermissions initPermissions "screen_capture" = initPermissions "screen_capture"
    ∧ set_permission initPermissions "mouse_click" true "file_operations" =
        initPermissions "file_operations" :=
  ⟨(claim_C2_amended initPermissions).2.1,
   (claim_C2_amended initPermissions).2.2.2.2.1 "screen_capture"
     (by decide) (by decide) (by decide) (by decide),
   (claim_C2_amended initPermissions).2.2.2.2.2.1 initPermissions "mouse_click" true
     "file_operations" (by decide)⟩

/-- Claim C5: every primitive action method first checks its capability;
denial returns the structured `Permission denied` failure with no OS effect
and no history append; with the capability granted and the OS call
succeeding, exactly one record (with truncated parameter preview and the
timestamp) is appended and returned with the success. Stated for all
fourteen executor methods. -/
theorem claim_C5 (st : ExecState) (now : String) (osErr : Option String) :
    (∀ (x y : Int) (button : String), st.permissions "mouse_click" = false →
      execute_mouse_click st now osErr x y button = (deniedOutcome "mouse_click", st, []))
    ∧ (∀ (x y : Int) (button : String), st.permissions "mouse_click" = true →
      execute_mouse_click st now none x y button =
        (let a : ActionRec :=
          { type := "mouse_click",
            detail := [("x", toString x), ("y", toString y), ("button", button)],
            timestamp := now }
         ({ success := true, action := some a, error := none },
          { st with action_history := st.action_history ++ [a] }, ["pyautogui.click"])))
    ∧ (∀ text : String, st.permissions "keyboard_type" = false →
      execute_keyboard_type st now osErr text = (deniedOutcome "keyboard_type", st, []))
    ∧ (∀ text : String, st.permissions "keyboard_type" = true →
      execute_keyboard_type st now none text =
        (let a : ActionRec :=
          { type := "keyboard_type",
            detail := [("text", takePy text 50)], timestamp := now }
         ({ success := true, action := some a, error := none },
          { st with action_history := st.action_history ++ [a] }, ["pyautogui.write"])))
    ∧ (∀ key : String, st.permissions "keyboard_type" = false →
      execute_key_press st now osErr key = (deniedOutcome "keyboard_type", st, []))
    ∧ (∀ key : String, st.permissions "keyboard_type" = true →
      execute_key_press st now none key =
        (let a : ActionRec :=
          { type := "key_press", detail := [("key", key)],
            timestamp := now }
         ({ success := true, action := some a, error := none },
          { st with action_history := st.action_history ++ [a] }, ["pyautogui.press"])))
    ∧ (∀ keys : List String, st.permissions "keyboard_type" = false →
      execute_hotkey st now osErr keys = (deniedOutcome "keyboard_type", st, []))
    ∧ (∀ keys : List String, st.permissions "keyboard_type" = true →
      execute_hotkey st now none keys =
        (let a : ActionRec :=
          { type := "hotkey",
            detail := [("keys", String.intercalate "+" keys)], timestamp := now }
         ({ success := true, action := some a, error := none },
          { st with action_history := st.action_history ++ [a] }, ["pyautogui.hotkey"])))
    ∧ (∀ app : String, st.permissions "system_commands" = false →
      open_application st now osErr app = (deniedOutcome "system_commands", st, []))
    ∧ (∀ app : String, st.permissions "system_commands" = true →
      open_application st now none app =
        (let a : ActionRec :=
          { type := "open_application", detail := [("app", app)],
            timestamp := now }
         ({ success := true, action := some a, error := none },
          { st with action_history := st.action_history ++ [a] },
          ["subprocess.Popen " ++ appCommand app])))
    ∧ (∀ x y : Int, st.permissions "mouse_click" = false →
      execute_mouse_move st now osErr x y = (deniedOutcome "mouse_click", st, []))
    ∧ (∀ x y : Int, st.permissions "mouse_click" = true →
      execute_mouse_move st now none x y =
        (let a : ActionRec :=
          { type := "mouse_move",
            detail := [("x", toString x), ("y", toString y)], timestamp := now }
         ({ success := true, action := some a, error := none },
          { st with action_history := st.action_history ++ [a] }, ["pyautogui.moveTo"])))
    ∧ (st.permissions "keyboard_type" = false →
      execute_escape st now osErr = (deniedOutcome "keyboard_type", st, []))
    ∧ (st.permissions "keyboard_type" = true →
      execute_escape st now none =
        (let a : ActionRec :=
          { type := "escape", detail := [], timestamp := now }
         ({ success := true, action := some a, error := none },
          { st with action_history := st.action_history ++ [a] }, ["pyautogui.press esc"])))
    ∧ (st.permissions "keyboard_type" = false →
      execute_alt_tab st now osErr = (deniedOutcome "keyboard_type", st, []))
    ∧ (st.permissions "keyboard_type" = true →
      execute_alt_tab st now none =
        (let a : ActionRec :=
          { type := "alt_tab", detail := [], timestamp := now }
         ({ success := true, action := some a, error := none },
          { st with action_history := st.action_history ++ [a] },
          ["pyautogui.hotkey alt tab"])))
    ∧ (st.permissions "keyboard_type" = false →
      execute_ctrl_n st now osErr = (deniedOutcome "keyboard_type", st, []))
    ∧ (st.permissions "keyboard_type" = true →
      execute_ctrl_n st now none =
        (let a : ActionRec :=
          { type := "ctrl_n",
            detail := [("description", "New window/document")], timestamp := now }
         ({ success := true, action := some a, error := none },
          { st with action_history := st.action_history ++ [a] },
          ["pyautogui.hotkey ctrl n"])))
    ∧ (st.permissions "keyboard_type" = false →
      execute_select_all st now osErr = (deniedOutcome "keyboard_type", st, []))
    ∧ (st.permissions "keyboard_type" = true →
      execute_select_all st now none =
        (let a : ActionRec :=
          { type := "select_all", detail := [], timestamp := now }
         ({ success := true, action := some a, error := none },
          { st with action_history := st.action_history ++ [a] },
          ["pyautogui.hotkey ctrl a"])))
    ∧ (st.permissions "file_operations" = false →
      execute_save_file st now osErr = (deniedOutcome "file_operations", st, []))
    ∧ (st.permissions "file_operations" = true →
      execute_save_file st now none =
        (let a : ActionRec :=
          { type := "save_file", detail := [], timestamp := now }
         ({ success := true, action := some a, error := none },
          { st with action_history := st.action_history ++ [a] },
          ["pyautogui.hotkey ctrl s"])))
    ∧ (∀ x y : Int, st.permissions "mouse_click" = false →
      execute_double_click st now osErr x y = (deniedOutcome "mouse_click", st, []))
    ∧ (∀ x y : Int, st.permissions "mouse_click" = true →
      execute_double_click st now none x y =
        (let a : ActionRec :=
          { type := "double_click",
            detail := [("x", toString x), ("y", toString y)], timestamp := now }
         ({ success := true, action := some a, error := none },
          { st with action_history := st.action_history ++ [a] },
          ["pyautogui.doubleClick"])))
    ∧ (∀ x y : Int, st.permissions "mouse_click" = false →
      execute_right_click st now osErr x y = (deniedOutcome "mouse_click", st, []))
    ∧ (∀ x y : Int, st.permissions "mouse_click" = true →
      execute_right_click st now none x y =
        (let a : ActionRec :=
          { type := "right_click",
            detail := [("x", toString x), ("y", toString y)], timestamp := now }
         ({ success := true, action := some a, error := none },
          { st with action_history := st.action_history ++ [a] },
          ["pyautogui.rightClick"])))
    ∧ (∀ amount : Int, st.permissions "mouse_click" = false →
      execute_scroll st now osErr amount = (deniedOutcome "mouse_click", st, []))
    ∧ (∀ amount : Int, st.permissions "mouse_click" = true →
      execute_scroll st now none amount =
        (let a : ActionRec :=
          { type := "scroll", detail := [("amount", toString amount)],
            timestamp := now }
         ({ success := true, action := some a, error := none },
          { st with action_history := st.action_history ++ [a] }, ["pyautogui.scroll"]))) := by
  refine ⟨?_, ?_, ?_, ?_, ?_, ?_, ?_, ?_, ?_, ?_, ?_, ?_, ?_, ?_, ?_, ?_, ?_, ?_,
    ?_, ?_, ?_, ?_, ?_, ?_, ?_, ?_, ?_, ?_⟩ <;>
    first
      | (intro x y button h
         simp [execute_mouse_click, request_permission, execFinish, h])
      | (intro x y h
         simp [execute_mouse_move, execute_double_click, execute_right_click,
           request_permission, execFinish, h])
      | (intro x h
         simp [execute_keyboard_type, execute_key_press, execute_hotkey, open_application,
           execute_scroll, request_permission, execFinish, h])
      | (intro h
         simp [execute_escape, execute_alt_tab, execute_ctrl_n, execute_select_all,
           execute_save_file, request_permission, execFinish, h])

/-- Witness for C5: on the initial (all-denied) permission map a mouse
click is denied with no effect and nothing appended, and after the
auto-grant a typed text is logged truncated with its timestamp. -/
theorem claim_C5_witness :
    initPermissions "mouse_click" = false
    ∧ execute_mouse_click { permissions := initPermissions, action_history := [] }
        "2026-10-12T10:00:00" none 100 200 "left" =
      (deniedOutcome "mouse_click",
       { permissions := initPermissions, action_history := [] }, [])
    ∧ execute_keyboard_type
        { permissions := taskStartPermissions initPermissions, action_history := [] }
        "2026-10-12T10:00:01" none "hello world" =
      (let a : ActionRec :=
          { type := "keyboard_type",
            detail := [("text", takePy "hello world" 50)],
            timestamp := "2026-10-12T10:00:01" }
       ({ success := true, action := some a, error := none },
        { permissions := taskStartPermissions initPermissions, action_history := [a] },
        ["pyautogui.write"])) :=
  ⟨rfl,
   (claim_C5 { permissions := initPermissions, action_history := [] }
      "2026-10-12T10:00:00" none).1 100 200 "left" rfl,
   (claim_C5 { permissions := taskStartPermissions initPermissions, action_history := [] }
      "2026-10-12T10:00:01" none).2.2.2.1 "hello world" (by decide)⟩

/-- A trivial post-parse continuation used to instantiate the universally
quantified dispatch parameter at concrete inputs (it is never reached on
the scripts below, whose first step already fails to parse). -/
def dispatchNone : Json → Nat → LoopState → DispatchRes :=
  fun _ _ st => .brk st

/-- A response script whose text contains no JSON at all. -/
def scriptNoJson : Nat → String :=
  fun _ => "I will inspect the screen first."

/-- A response script returning a brace-balanced candidate that is not
valid JSON. -/
def scriptBadJson : Nat → String :=
  fun _ => "\x7b\"action\": \x7d"

/-- Claim C1 (amended): when a step's response text yields no extractable
JSON candidate, or the candidate fails `json.loads`, the failure is logged
with the offending text (`AI said: ...` with the first 200 characters,
resp. `JSON found: ...` with the first 100 characters of the candidate)
and the step loop terminates immediately with no in-step retry — but the
terminal result is the generic stopped-after-max-steps result, whose
`success` field is `True`, not `False`. Stated for every dispatch
behaviour, script, remaining budget and loop state. -/
theorem claim_C1_amended (dispatch : Json → Nat → LoopState → DispatchRes)
    (script : Nat → String) (fuel stepIdx : Nat) (st : LoopState) (hf : 0 < fuel) :
    (pyStrip (script stepIdx) ≠ "" → extractJsonText (pyStrip (script stepIdx)) = none →
      runFrom dispatch script fuel stepIdx st =
        stoppedResult { st with log := st.log ++ noJsonLog stepIdx (pyStrip (script stepIdx)) }
      ∧ (runFrom dispatch script fuel stepIdx st).success = true)
    ∧ (∀ cand, pyStrip (script stepIdx) ≠ "" →
        extractJsonText (pyStrip (script stepIdx)) = some cand → parseJson cand = none →
        runFrom dispatch script fuel stepIdx st =
          stoppedResult { st with log := st.log ++ badJsonLog stepIdx cand }
        ∧ (runFrom dispatch script fuel stepIdx st).success = true) := by
  obtain ⟨f, rfl⟩ : ∃ f, fuel = f + 1 := ⟨fuel - 1, by omega⟩
  constructor
  · intro h1 h2
    have key : runFrom dispatch script (f + 1) stepIdx st =
        stoppedResult { st with log := st.log ++ noJsonLog stepIdx (pyStrip (script stepIdx)) } := by
      simp only [runFrom, stepBody]
      rw [if_neg h1, h2]
    exact ⟨key, by rw [key]; rfl⟩
  · intro cand h1 h2 h3
    have key : runFrom dispatch script (f + 1) stepIdx st =
        stoppedResult { st with log := st.log ++ badJsonLog stepIdx cand } := by
      simp only [runFrom, stepBody]
      rw [if_neg h1]
      simp only [h2, h3]
    exact ⟨key, by rw [key]; rfl⟩

/-- Claim C1, counterexample: a first-step response with no extractable
JSON is logged and aborts the loop with no retry, but the terminal result
reports `success = True` — the claim's `success = false` is refuted at
this concrete input. -/
theorem claim_C1_counterexample :
    (runTask dispatchNone scriptNoJson "open notepad").success = true
    ∧ (runTask dispatchNone scriptNoJson "open notepad").execution_log =
        ["Original task: open notepad",
         "Step 1: Invalid AI response format",
         "  AI said: I will inspect the screen first...."] := by
  constructor
  · rfl
  · rfl

/-- Witness for the amended C1 at a concrete failing script. -/
theorem claim_C1_witness :
    runFrom dispatchNone scriptNoJson 15 0
        { steps_completed := 0, last_action := none, repeat_count := 0,
          log := ["Original task: open notepad"] } =
      stoppedResult
        { steps_completed := 0, last_action := none, repeat_count := 0,
          log := ["Original task: open notepad"] ++ noJsonLog 0 (pyStrip (scriptNoJson 0)) } :=
  ((claim_C1_amended dispatchNone scriptNoJson 15 0
      { steps_completed := 0, last_action := none, repeat_count := 0,
        log := ["Original task: open notepad"] } (by decide)).1
    (by decide) (by decide)).1

/-- Claim C8: the response text consisting of the brace-balanced candidate
that is not valid JSON is extracted whole, fails `json.loads`, and
produces the malformed-JSON failure path: the raw candidate is surfaced in
the execution log and the embedded pipeline returns a result rather than
propagating an error (the `json.JSONDecodeError` is caught in the
source). -/
theorem claim_C8 :
    extractJsonText "\x7b\"action\": \x7d" = some "\x7b\"action\": \x7d"
    ∧ parseJson "\x7b\"action\": \x7d" = none
    ∧ runTask dispatchNone scriptBadJson "demo task" =
        { success := true, steps_completed := 0,
          execution_log := ["Original task: demo task",
            "Step 1: Could not parse AI response",
            "  JSON found: \x7b\"action\": \x7d..."],
          message := some "Task execution stopped after 15 steps. May need manual completion.",
          error := none } := by
  refine ⟨rfl, rfl, rfl⟩

/-- The claim's example candidate: JSON with braces inside a string
literal. -/
def c7Candidate : String :=
  "\x7b\"reasoning\":\"use \x7bcurly\x7d literally\",\"action\":\"wait\"\x7d"

/-- The example candidate embedded in surrounding prose (no fenced block
present, first opening brace is the candidate's). -/
def c7Response : String :=
  "THINKING: I should wait for the page to load. " ++ c7Candidate ++ " That is my decision."

/-- Claim C7: with no fenced block, extraction starts at the first opening
brace and the escape- and string-aware walk closes at the correct brace on
the claim's example; braces seen in inside-string mode never change the
depth; a backslash consumes the following character; and when the fence
pattern does not match, extraction is exactly the brace walk from the
first opening brace. -/
theorem claim_C7 :
    extractJsonText c7Response = some c7Candidate
    ∧ (∀ (t : List Char) (i depth : Nat),
        walkEnd ('\x7b' :: t) i depth true false = walkEnd t (i + 1) depth true false)
    ∧ (∀ (t : List Char) (i depth : Nat),
        walkEnd ('\x7d' :: t) i depth true false = walkEnd t (i + 1) depth true false)
    ∧ (∀ (c : Char) (t : List Char) (i depth : Nat) (inStr : Bool),
        walkEnd ('\\' :: c :: t) i depth inStr false = walkEnd t (i + 2) depth inStr false)
    ∧ (∀ s : String, findFence s.data = none → extractJsonText s = braceWalk s) := by
  refine ⟨by decide, fun t i depth => rfl, fun t i depth => rfl, ?_, ?_⟩
  · intro c t i depth inStr
    show walkEnd (c :: t) (i + 1) depth inStr true = walkEnd t (i + 2) depth inStr false
    rfl
  · intro s h
    unfold extractJsonText
    rw [h]

/-- Witness for C7's conditional conjunct at a concrete fence-free
input. -/
theorem claim_C7_witness :
    extractJsonText "plain prose only" = braceWalk "plain prose only" :=
  claim_C7.2.2.2.2 "plain prose only" (by decide)

/-- A concrete Start-button detection oracle over screenshots modelled as
numbers: the reported x coordinate depends on the screenshot, so
detections from different screenshots are distinguishable. -/
def demoStartFound (n : Nat) : DetectionResult :=
  { name := "Windows Start button", x := (n : ℤ), y := 700, width := 40, height := 40,
    confidence := 9/10, method := "opencv_template_matching" }

/-- A detector bank with only the Start detector initialized. -/
def demoDetectors : Detectors Nat :=
  { start_detector := some (fun n => some (demoStartFound n)),
    edge_detector := none, folders_detector := none, searchbar_detector := none }

/-- The cache after detecting on screenshot 1. -/
def cacheAfterShot1 : Cache :=
  (detect_elements demoDetectors [] 1 (some "start button")).2

/-- Claim C3, counterexample: after a detection on screenshot 1 is cached,
`find_element` under the same element name with the fresh screenshot 2
returns the cached element of screenshot 1 unchanged — the cache entry is
not invalidated and the stale detection is returned, while a fresh
detection on screenshot 2 would differ. -/
theorem claim_C3_counterexample :
    cacheAfterShot1 = [("Windows Start button", mkElement (demoStartFound 1))]
    ∧ find_element demoDetectors cacheAfterShot1 "Windows Start button" (some 2) =
        (some (mkElement (demoStartFound 1)), cacheAfterShot1)
    ∧ mkElement (demoStartFound 1) ≠ mkElement (demoStartFound 2) := by
  refine ⟨rfl, rfl, ?_⟩
  intro h
  have hx := congrArg Element.x h
  simp [mkElement, demoStartFound] at hx

/-- Claim C3 (amended): detections are cached per element name for the
session's lifetime and the cache is never invalidated — `find_element`
returns a cached entry unchanged even when a fresh screenshot is supplied,
and re-detection (via `detect_elements`, which overwrites the entry on
success) happens only on a cache miss. -/
theorem claim_C3_amended {σ : Type} (d : Detectors σ) (cache : Cache) (name : String)
    (shot : Option σ) (e : Element) (h : cacheGet cache name = some e) :
    find_element d cache name shot = (some e, cache)
    ∧ (∀ (cache2 : Cache) (s : σ), cacheGet cache2 name = none →
        find_element d cache2 name (some s) =
          ((detect_elements d cache2 s (some name)).1.head?,
           (detect_elements d cache2 s (some name)).2))
    ∧ (∀ (cache3 : Cache) (s : σ) (f : σ → Option DetectionResult) (dr : DetectionResult),
        f s = some dr →
        runDetector f cache3 s =
          ([mkElement dr], cacheSet cache3 (mkElement dr).name (mkElement dr))) := by
  refine ⟨?_, ?_, ?_⟩
  · simp [find_element, h]
  · intro cache2 s h2
    simp only [find_element, h2]
    rcases hr : (detect_elements d cache2 s (some name)).1 with _ | ⟨a, t⟩ <;>
      simp [hr]
  · intro cache3 s f dr hf
    simp [runDetector, hf]

/-- Witness for the amended C3 at a concrete cached state. -/
theorem claim_C3_witness :
    find_element demoDetectors [("Windows Start button", mkElement (demoStartFound 1))]
        "Windows Start button" (some 5) =
      (some (mkElement (demoStartFound 1)),
       [("Windows Start button", mkElement (demoStartFound 1))]) :=
  (claim_C3_amended demoDetectors
      [("Windows Start button", mkElement (demoStartFound 1))]
      "Windows Start button" (some 5) (mkElement (demoStartFound 1)) rfl).1

/-- An Edge-browser detection oracle independent of the screenshot. -/
def demoEdgeFound : DetectionResult :=
  { name := "Edge Browser", x := 500, y := 700, width := 44, height := 44,
    confidence := 8/10, method := "opencv_template_matching" }

/-- A detector bank whose Start slot is uninitialized (missing template
asset) but whose Edge slot is present. -/
def fallThroughDetectors : Detectors Nat :=
  { start_detector := none,
    edge_detector := some (fun _ => some demoEdgeFound),
    folders_detector := none, searchbar_detector := none }

/-- Claim C9, counterexample: for the query "Start menu browser" the first
matching keyword set is the Start set, but with the Start detector
uninitialized dispatch falls through to the Edge keyword test and returns
the Edge detection — the first matching keyword set does not decide the
outcome and the result is not empty. -/
theorem claim_C9_counterexample :
    kwStart (lowerPy "Start menu browser") = true
    ∧ (detect_elements fallThroughDetectors [] 0 (some "Start menu browser")).1 =
        [mkElement demoEdgeFound] := by
  refine ⟨rfl, rfl⟩

/-- Claim C9 (amended): dispatch lower-cases the query and tests the fixed
keyword sets in the fixed order Start, Edge, Folders, Search. When the
first matching set's detector is initialized it alone decides: its miss
returns the empty result with no fallback to the other detectors. When
that detector is uninitialized, dispatch falls through to the remaining
keyword tests. A query matching no keyword set yields the empty result. -/
theorem claim_C9_amended {σ : Type} (d : Detectors σ) (cache : Cache) (shot : σ)
    (q : String) (hq : q ≠ "") :
    (∀ f, kwStart (lowerPy q) = true → d.start_detector = some f →
      detect_elements d cache shot (some q) = runDetector f cache shot)
    ∧ (∀ f, kwStart (lowerPy q) = true → d.start_detector = some f → f shot = none →
      detect_elements d cache shot (some q) = ([], cache))
    ∧ (kwStart (lowerPy q) = true → d.start_detector = none →
      detect_elements d cache shot (some q) = detectViaEdge d cache shot (lowerPy q))
    ∧ (kwStart (lowerPy q) = false → kwEdge (lowerPy q) = false → kwFolders (lowerPy q) = false →
       kwSearch (lowerPy q) = false →
      detect_elements d cache shot (some q) = ([], cache)) := by
  refine ⟨?_, ?_, ?_, ?_⟩
  · intro f h1 h2
    simp [detect_elements, hq, detectViaStart, h1, h2]
  · intro f h1 h2 h3
    simp [detect_elements, hq, detectViaStart, h1, h2, runDetector, h3]
  · intro h1 h2
    simp [detect_elements, hq, detectViaStart, h1, h2]
  · intro h1 h2 h3 h4
    simp [detect_elements, hq, detectViaStart, detectViaEdge, detectViaFolders,
      detectViaSearch, h1, h2, h3, h4]

/-- Witness for the amended C9: with the Start detector initialized, a
Start query is decided by it alone. -/
theorem claim_C9_witness :
    detect_elements demoDetectors [] (3 : Nat) (some "start button") =
      runDetector (fun n => some (demoStartFound n)) [] 3 :=
  (claim_C9_amended demoDetectors [] 3 "start button" (by decide)).1
    (fun n => some (demoStartFound n)) rfl rfl

/-- Claim C6: the Start-button template-match acceptance is two-tiered.
`_run_template_matching` returns a match only at or above the 0.45 floor
(and a best below the floor yields nothing); `detect` returns a match with
confidence ≥ 0.55 immediately, skipping colour and shape validation; a
match in the band [0.45, 0.55) is returned exactly when the margin-expanded
patch is nonempty and both the colour check and the shape check pass, and
is rejected otherwise; and the generic detector's matcher likewise returns
nothing when its best confidence is below its 0.5 floor. -/
theorem claim_C6 {σ : Type} (cv : StartCV σ) (img : σ) :
    (runTemplateMatching cv (cv.extractRoi img).1 = none → startDetect cv img = none)
    ∧ (∀ m, runTemplateMatching cv (cv.extractRoi img).1 = some m →
        45/100 ≤ m.confidence)
    ∧ (∀ b, tmBest cv (cv.extractRoi img).1 = some b → b.confidence < 45/100 →
        runTemplateMatching cv (cv.extractRoi img).1 = none)
    ∧ (∀ m, runTemplateMatching cv (cv.extractRoi img).1 = some m →
        55/100 ≤ m.confidence →
        startDetect cv img = some (startResult cv img m "opencv_template_matching"))
    ∧ (∀ m, runTemplateMatching cv (cv.extractRoi img).1 = some m →
        m.confidence < 55/100 →
        ((cv.patchNonempty (startPatch cv img m) && (cv.colourOk (startPatch cv img m) &&
            cv.shapeOk (startPatch cv img m))) = true →
          startDetect cv img = some (startResult cv img m "opencv_template+colour+shape"))
        ∧ ((cv.patchNonempty (startPatch cv img m) && (cv.colourOk (startPatch cv img m) &&
            cv.shapeOk (startPatch cv img m))) = false →
          startDetect cv img = none))
    ∧ (∀ (gcv : GenCV σ) (roi : σ),
        (tmScales.foldl (genStep gcv roi (gcv.roiShape roi)) (none, 0)).2 < 1/2 →
        genRunTemplateMatching gcv roi = none) := by
  refine ⟨?_, ?_, ?_, ?_, ?_, ?_⟩
  · intro h
    simp only [startDetect, h]
  · intro m h
    cases htb : tmBest cv (cv.extractRoi img).1 with
    | none =>
        simp only [runTemplateMatching, htb] at h
        exact absurd h (by simp)
    | some b =>
        simp only [runTemplateMatching, htb] at h
        split at h
        · obtain rfl : b = m := by injection h
          assumption
        · exact absurd h (by simp)
  · intro b htb hlt
    simp only [runTemplateMatching, htb]
    split
    · next h45 => exact absurd h45 (not_le.mpr hlt)
    · rfl
  · intro m h h55
    simp only [startDetect, h]
    split
    · rfl
    · next h56 => exact absurd h55 h56
  · intro m h h55
    constructor
    · intro hb
      obtain ⟨hpn, hco, hsh⟩ : cv.patchNonempty (startPatch cv img m) = true ∧
          cv.colourOk (startPatch cv img m) = true ∧
          cv.shapeOk (startPatch cv img m) = true := by
        simpa [Bool.and_eq_true] using hb
      simp only [startDetect, h]
      split
      · next h56 => exact absurd h56 (not_le.mpr h55)
      · simp [hpn, hco, hsh]
    · intro hb
      simp only [startDetect, h]
      split
      · next h56 => exact absurd h56 (not_le.mpr h55)
      · cases hpn : cv.patchNonempty (startPatch cv img m) with
        | false => simp [hpn]
        | true =>
            have hcs : (cv.colourOk (startPatch cv img m) &&
                cv.shapeOk (startPatch cv img m)) = false := by
              rw [hpn] at hb
              simpa using hb
            simp [hpn, hcs]
  · intro gcv roi hlt
    simp only [genRunTemplateMatching]
    split
    · next hge => exact absurd hge (not_le.mpr hlt)
    · rfl

/-- A concrete oracle instantiation: only the unit scale fits the region,
the first metric scores 0.7 and the second 0.6 at top-left location
(20, 30), all patch checks pass. -/
def cvDemo : StartCV Unit :=
  { tdim := fun s => if s = 1 then (10, 10) else (200, 200),
    roiDims := fun _ => (100, 100),
    mm := fun _ _ m => ((20, 30), match m with | .ccoeffNormed => 7/10 | .ccorrNormed => 6/10),
    extractRoi := fun _ => ((), (0, 40)),
    cropMargin := fun _ _ _ _ => (),
    patchNonempty := fun _ => true,
    colourOk := fun _ => true,
    shapeOk := fun _ => true }

/-- Witness for C6: on the concrete oracles the matcher reports the
centre-of-region match with confidence 0.7 ≥ 0.55, and detection
short-circuits to the template-only result. -/
theorem claim_C6_witness :
    runTemplateMatching cvDemo ((cvDemo.extractRoi ()).1) =
      some { x := 25, y := 35, width := 10, height := 10, confidence := 7/10 }
    ∧ startDetect cvDemo () =
        some (startResult cvDemo ()
          { x := 25, y := 35, width := 10, height := 10, confidence := 7/10 }
          "opencv_template_matching") := by
  have hrun : runTemplateMatching cvDemo ((cvDemo.extractRoi ()).1) =
      some { x := 25, y := 35, width := 10, height := 10, confidence := 7/10 } := by
    norm_num [runTemplateMatching, tmBest, tmScales, tmScaleStep, tmUpdate, tmMethods, cvDemo]
  exact ⟨hrun, (claim_C6 cvDemo ()).2.2.2.1 _ hrun (by norm_num)⟩

/-- A Start-detector match is centred: its coordinates are a top-left
location plus half the scaled template extent (exact rational halves, as
in the source's float arithmetic). -/
def tmCentered (m : TMatch) : Prop :=
  ∃ lx ly : Nat, m.x = (lx : ℚ) + (m.width : ℚ) / 2 ∧ m.y = (ly : ℚ) + (m.height : ℚ) / 2

/-- A generic-detector match is centred: top-left location plus the
floor-halved scaled extent (`// 2` in the source). -/
def genCentered (g : GenMatch) : Prop :=
  ∃ lx ly : Nat, g.x = lx + g.width / 2 ∧ g.y = ly + g.height / 2

/-- Helper: `tmUpdate` only produces centred matches from centred ones. -/
theorem tmUpdate_centered {σ : Type} (cv : StartCV σ) (roi : σ) (dims : Nat × Nat)
    (o : Option TMatch) (m : TMMethod) (h : ∀ b, o = some b → tmCentered b) :
    ∀ b, tmUpdate cv roi dims o m = some b → tmCentered b := by
  intro b hb
  cases o with
  | none =>
      simp only [tmUpdate] at hb
      rw [Option.some.injEq] at hb
      subst hb
      exact ⟨(cv.mm roi dims m).1.1, (cv.mm roi dims m).1.2, rfl, rfl⟩
  | some b0 =>
      simp only [tmUpdate] at hb
      split at hb
      · rw [Option.some.injEq] at hb
        subst hb
        exact ⟨(cv.mm roi dims m).1.1, (cv.mm roi dims m).1.2, rfl, rfl⟩
      · rw [Option.some.injEq] at hb
        subst hb
        exact h b0 rfl

/-- Helper: the best match over the whole scale × metric fold is centred. -/
theorem tmBest_centered {σ : Type} (cv : StartCV σ) (roi : σ) :
    ∀ m, tmBest cv roi = some m → tmCentered m := by
  have inner : ∀ (ms : List TMMethod) (o : Option TMatch) (dims : Nat × Nat),
      (∀ b, o = some b → tmCentered b) →
      ∀ b, ms.foldl (tmUpdate cv roi dims) o = some b → tmCentered b := by
    intro ms
    induction ms with
    | nil => intro o dims ho b hb; exact ho b hb
    | cons mth t ih =>
        intro o dims ho b hb
        exact ih _ dims (tmUpdate_centered cv roi dims o mth ho) b hb
  have step : ∀ (o : Option TMatch) (scale : ℚ),
      (∀ b, o = some b → tmCentered b) →
      ∀ b, tmScaleStep cv roi (cv.roiDims roi) o scale = some b → tmCentered b := by
    intro o scale ho b hb
    simp only [tmScaleStep] at hb
    split at hb
    · exact ho b hb
    · exact inner tmMethods o (cv.tdim scale) ho b hb
  have outer : ∀ (l : List ℚ) (o : Option TMatch),
      (∀ b, o = some b → tmCentered b) →
      ∀ m, l.foldl (tmScaleStep cv roi (cv.roiDims roi)) o = some m → tmCentered m := by
    intro l
    induction l with
    | nil => intro o ho m hm; exact ho m hm
    | cons sc t ih =>
        intro o ho m hm
        exact ih _ (step o sc ho) m hm
  intro m hm
  exact outer tmScales none (by simp) m hm

/-- Helper: an accepted match is the fold's best match. -/
theorem runTM_eq_best {σ : Type} (cv : StartCV σ) (roi : σ) {m : TMatch}
    (h : runTemplateMatching cv roi = some m) : tmBest cv roi = some m := by
  cases htb : tmBest cv roi with
  | none =>
      simp only [runTemplateMatching, htb] at h
      exact absurd h (by simp)
  | some b =>
      simp only [runTemplateMatching, htb] at h
      split at h
      · exact h
      · exact absurd h (by simp)

/-- Helper: `genStep` only produces centred matches from centred ones. -/
theorem genStep_centered {σ : Type} (cv : GenCV σ) (roi : σ) (rdims : Nat × Nat)
    (acc : Option GenMatch × ℚ) (scale : ℚ)
    (h : ∀ g, acc.1 = some g → genCentered g) :
    ∀ g, (genStep cv roi rdims acc scale).1 = some g → genCentered g := by
  have inner : ∀ (ms : List TMMethod) (a : Option GenMatch × ℚ) (nh nw : Nat),
      (∀ g, a.1 = some g → genCentered g) →
      ∀ g, (ms.foldl
          (fun a m =>
            let r := cv.mm roi (nh, nw) m
            if r.2 > a.2 then
              (some { x := r.1.1 + nw / 2, y := r.1.2 + nh / 2,
                      width := nw, height := nh, confidence := r.2 }, r.2)
            else a)
          a).1 = some g → genCentered g := by
    intro ms
    induction ms with
    | nil => intro a nh nw ha g hg; exact ha g hg
    | cons mth t ih =>
        intro a nh nw ha g hg
        refine ih _ nh nw ?_ g hg
        intro g2 hg2
        dsimp only at hg2
        split at hg2
        · rw [Option.some.injEq] at hg2
          subst hg2
          exact ⟨(cv.mm roi (nh, nw) mth).1.1, (cv.mm roi (nh, nw) mth).1.2, rfl, rfl⟩
        · exact ha g2 hg2
  intro g hg
  simp only [genStep] at hg
  split at hg
  · exact h g hg
  · split at hg
    · exact h g hg
    · exact inner tmMethods acc
        (natScale cv.tShape.1 scale) (natScale cv.tShape.2 scale) h g hg

/-- Helper: the generic fold's best match is centred. -/
theorem genBest_centered {σ : Type} (cv : GenCV σ) (roi : σ) :
    ∀ g, (tmScales.foldl (genStep cv roi (cv.roiShape roi)) (none, 0)).1 = some g →
      genCentered g := by
  have outer : ∀ (l : List ℚ) (a : Option GenMatch × ℚ),
      (∀ g, a.1 = some g → genCentered g) →
      ∀ g, (l.foldl (genStep cv roi (cv.roiShape roi)) a).1 = some g → genCentered g := by
    intro l
    induction l with
    | nil => intro a ha g hg; exact ha g hg
    | cons sc t ih =>
        intro a ha g hg
        exact ih _ (genStep_centered cv roi (cv.roiShape roi) a sc ha) g hg
  intro g hg
  exact outer tmScales (none, 0) (by simp) g hg

/-- Helper: an accepted generic match is the fold's best match. -/
theorem genRunTM_eq_best {σ : Type} (cv : GenCV σ) (roi : σ) {g : GenMatch}
    (h : genRunTemplateMatching cv roi = some g) :
    (tmScales.foldl (genStep cv roi (cv.roiShape roi)) (none, 0)).1 = some g := by
  simp only [genRunTemplateMatching] at h
  split at h
  · exact h
  · exact absurd h (by simp)

/-- Claim C10: every accepted template match carries the centre of the
matched region — the best-match top-left location plus half the scaled
template extent (exact halves for the Start detector's float arithmetic,
floor halves for the generic detector) — the produced `DetectionResult`
offsets it by the ROI origin (with Python `int` truncation in the Start
detector), and `center` returns exactly `(x, y)`. -/
theorem claim_C10 {σ : Type} (cv : StartCV σ) (gcv : GenCV σ) (img : σ) (name : String) :
    (∀ m, runTemplateMatching cv (cv.extractRoi img).1 = some m → tmCentered m)
    ∧ (∀ m r, runTemplateMatching cv (cv.extractRoi img).1 = some m →
        startDetect cv img = some r →
        r.x = pyInt (((cv.extractRoi img).2.1 : ℚ) + m.x) ∧
        r.y = pyInt (((cv.extractRoi img).2.2 : ℚ) + m.y) ∧
        r.center = (r.x, r.y))
    ∧ (∀ g, genRunTemplateMatching gcv (gcv.extractRoi img).1 = some g → genCentered g)
    ∧ (∀ g r, genRunTemplateMatching gcv (gcv.extractRoi img).1 = some g →
        genDetect gcv name img = some r →
        r.x = ((g.x + (gcv.extractRoi img).2.1 : Nat) : ℤ) ∧
        r.y = ((g.y + (gcv.extractRoi img).2.2 : Nat) : ℤ) ∧
        r.center = (r.x, r.y)) := by
  refine ⟨?_, ?_, ?_, ?_⟩
  · intro m hm
    exact tmBest_centered cv _ m (runTM_eq_best cv _ hm)
  · intro m r hm hr
    simp only [startDetect, hm] at hr
    split at hr
    · rw [Option.some.injEq] at hr
      subst hr
      exact ⟨rfl, rfl, rfl⟩
    · split at hr
      · exact absurd hr (by simp)
      · split at hr
        · rw [Option.some.injEq] at hr
          subst hr
          exact ⟨rfl, rfl, rfl⟩
        · exact absurd hr (by simp)
  · intro g hg
    exact genBest_centered gcv _ g (genRunTM_eq_best gcv _ hg)
  · intro g r hg hr
    unfold genDetect at hr
    rw [hg] at hr
    have hr2 : some
        ({ name := name,
           x := ((g.x + (gcv.extractRoi img).2.1 : Nat) : ℤ),
           y := ((g.y + (gcv.extractRoi img).2.2 : Nat) : ℤ),
           width := (g.width : ℤ), height := (g.height : ℤ),
           confidence := g.confidence,
           method := "opencv_template_matching" } : DetectionResult) = some r := hr
    rw [Option.some.injEq] at hr2
    subst hr2
    exact ⟨rfl, rfl, rfl⟩

/-- A concrete generic-detector oracle: a 20×20 template, the first metric
scoring 0.6 at top-left (12, 7) on every admissible scale. -/
def genDemo : GenCV Unit :=
  { tShape := (20, 20),
    roiShape := fun _ => (100, 200),
    mm := fun _ _ m => ((12, 7), match m with | .ccoeffNormed => 3/5 | .ccorrNormed => 1/2),
    extractRoi := fun _ => ((), (0, 1340)) }

/-- Witness for C10: concrete accepted matches of both detectors carry
centred coordinates. -/
theorem claim_C10_witness :
    tmCentered { x := 25, y := 35, width := 10, height := 10, confidence := 7/10 }
    ∧ genCentered { x := 18, y := 13, width := 12, height := 12, confidence := 3/5 } := by
  have hrun : runTemplateMatching cvDemo ((cvDemo.extractRoi ()).1) =
      some { x := 25, y := 35, width := 10, height := 10, confidence := 7/10 } := by
    norm_num [runTemplateMatching, tmBest, tmScales, tmScaleStep, tmUpdate, tmMethods, cvDemo]
  have hgen : genRunTemplateMatching genDemo ((genDemo.extractRoi ()).1) =
      some { x := 18, y := 13, width := 12, height := 12, confidence := 3/5 } := by
    norm_num [genRunTemplateMatching, tmScales, genStep, tmMethods, genDemo, natScale, pyInt]
    all_goals decide
  exact ⟨(claim_C10 cvDemo genDemo () "Edge Browser").1 _ hrun,
    (claim_C10 cvDemo genDemo () "Edge Browser").2.2.1 _ hgen⟩

end Zeyta
